import Mathlib

/-!
Shallow embedding of the Community-Connect authentication/registration flow.

The source is a TypeScript Express application:
- `src/server/storage.ts` defines `MemStorage`, an in-memory store holding
  three `Map`s (users, otps, services) keyed by a freshly generated UUID.
- `src/server/routes.ts` defines the `POST /api/auth/send-otp` and
  `POST /api/auth/verify-otp` handlers (and service routes).
- `src/shared/schema.ts` defines the records and the zod insert schemas.

Modelling decisions (all visible in the definitions below):
- A JavaScript `Map` iterated via `Array.from(map.values())` yields values in
  insertion order, so each `Map` is modelled as a `List` in insertion order;
  `map.set` on an existing key (used by `updateUser` / `markOtpAsUsed`)
  replaces the value in place, modelled as `List.map` replacing the entry with
  the matching id.
- `randomUUID()` produces a fresh key; freshness is modelled by a counter
  `nextId` carried in the state, ids being `Nat`.
- `Date` timestamps are `Nat` milliseconds; `Date.now()` is an explicit `now`
  parameter.
- `Math.random()` is an explicit parameter `rnd : Nat`; the source computes
  `Math.floor(100000 + Math.random() * 900000)`, whose value set is exactly
  `{100000 + k | k < 900000}`, modelled as `100000 + rnd % 900000`.
- JSON request bodies carry optional string fields, modelled as
  `Option String`; JavaScript falsiness of a possibly-absent string
  (`!phone`, `!name`, ...) is `truthy` below (absent and `""` are falsy).
-/

/-- The `users` record of `src/shared/schema.ts` (§ `pgTable "users"`). -/
structure User where
  id : Nat
  name : String
  phone : String
  flat : String
  floor : String
  block : String
  role : String
  isVerified : Bool
  createdAt : Nat
deriving Repr, DecidableEq

/-- The `otp_verifications` record of `src/shared/schema.ts`. -/
structure Otp where
  id : Nat
  phone : String
  otp : String
  expiresAt : Nat
  isUsed : Bool
  createdAt : Nat
deriving Repr, DecidableEq

/-- The `services` record of `src/shared/schema.ts`. -/
structure Service where
  id : Nat
  title : String
  description : String
  price : String
  category : String
  offeredByUserId : Nat
  createdAt : Nat
deriving Repr, DecidableEq

/-- Payload `InsertUser` (`insertUserSchema` pick of name/phone/flat/floor/block/role). -/
structure InsertUser where
  name : String
  phone : String
  flat : String
  floor : String
  block : String
  role : String
deriving Repr, DecidableEq

/-- Payload `InsertService` (`insertServiceSchema` pick). -/
structure InsertService where
  title : String
  description : String
  price : String
  category : String
  offeredByUserId : Nat
deriving Repr, DecidableEq

/-- The three maps of `MemStorage` (insertion order), plus the fresh-id
counter modelling `randomUUID`. -/
structure State where
  users : List User
  otps : List Otp
  services : List Service
  nextId : Nat
deriving Repr, DecidableEq

def State.empty : State := { users := [], otps := [], services := [], nextId := 0 }

/-- Updates object `Partial<User>` as passed to `updateUser`: absent fields keep the stored
value, present fields override it, exactly like the spread
`{ ...user, ...updates }`. The map key (the id) is not part of the update:
no caller in `routes.ts` ever passes `id`, and `Map.set(id, ...)` keeps the
entry under the original key. -/
structure UserUpdates where
  name : Option String := none
  phone : Option String := none
  flat : Option String := none
  floor : Option String := none
  block : Option String := none
  role : Option String := none
  isVerified : Option Bool := none
  createdAt : Option Nat := none
deriving Repr, DecidableEq

/-- The spread `{ ...user, ...updates }` of `MemStorage.updateUser`. -/
def applyUpdates (u : User) (upd : UserUpdates) : User :=
  { u with
    name := upd.name.getD u.name
    phone := upd.phone.getD u.phone
    flat := upd.flat.getD u.flat
    floor := upd.floor.getD u.floor
    block := upd.block.getD u.block
    role := upd.role.getD u.role
    isVerified := upd.isVerified.getD u.isVerified
    createdAt := upd.createdAt.getD u.createdAt }

namespace MemStorage

/-- Model of `MemStorage.getUser` (`storage.ts` line 33): `this.users.get(id)`. -/
def getUser (id : Nat) (st : State) : Option User :=
  st.users.find? (fun u => u.id == id)

/-- Model of `MemStorage.getUserByPhone` (`storage.ts` lines 37-41):
`Array.from(this.users.values()).find(user => user.phone === phone)`. -/
def getUserByPhone (phone : String) (st : State) : Option User :=
  st.users.find? (fun u => u.phone == phone)

/-- Model of `MemStorage.createUser` (`storage.ts` lines 43-53): fresh id, spread of
the insert payload, `isVerified: false`, `createdAt: new Date()`. -/
def createUser (d : InsertUser) (now : Nat) (st : State) : User × State :=
  let user : User :=
    { id := st.nextId, name := d.name, phone := d.phone, flat := d.flat,
      floor := d.floor, block := d.block, role := d.role,
      isVerified := false, createdAt := now }
  (user, { st with users := st.users ++ [user], nextId := st.nextId + 1 })

/-- Model of `MemStorage.updateUser` (`storage.ts` lines 55-62): `this.users.get(id)`,
`undefined` when absent, else store `{ ...user, ...updates }` back under the
same key. -/
def updateUser (id : Nat) (upd : UserUpdates) (st : State) :
    Option User × State :=
  match st.users.find? (fun u => u.id == id) with
  | none => (none, st)
  | some u =>
    let u' := applyUpdates u upd
    (some u',
     { st with users := st.users.map (fun x => if x.id == id then u' else x) })

/-- Model of `MemStorage.createOtp` (`storage.ts` lines 64-74): fresh id,
`isUsed: false`, `createdAt: new Date()`. -/
def createOtp (phone otp : String) (expiresAt now : Nat) (st : State) :
    Otp × State :=
  let o : Otp :=
    { id := st.nextId, phone := phone, otp := otp, expiresAt := expiresAt,
      isUsed := false, createdAt := now }
  (o, { st with otps := st.otps ++ [o], nextId := st.nextId + 1 })

/-- Model of `MemStorage.getValidOtp` (`storage.ts` lines 76-83): first record with
matching phone, exactly matching code, `!otp.isUsed`, and
`otp.expiresAt > new Date()` (strict). -/
def getValidOtp (phone otpCode : String) (now : Nat) (st : State) :
    Option Otp :=
  st.otps.find? (fun o =>
    o.phone == phone && o.otp == otpCode && !o.isUsed &&
    decide (now < o.expiresAt))

/-- Model of `MemStorage.markOtpAsUsed` (`storage.ts` lines 85-90): if a record with
the id exists, replace it by `{ ...otp, isUsed: true }`; no-op otherwise. -/
def markOtpAsUsed (id : Nat) (st : State) : State :=
  { st with otps := st.otps.map (fun o =>
      if o.id == id then { o with isUsed := true } else o) }

/-- Model of `MemStorage.getServices` (`storage.ts` lines 92-94). -/
def getServices (st : State) : List Service :=
  st.services

/-- Model of `MemStorage.createService` (`storage.ts` lines 96-105). -/
def createService (d : InsertService) (now : Nat) (st : State) :
    Service × State :=
  let s : Service :=
    { id := st.nextId, title := d.title, description := d.description,
      price := d.price, category := d.category,
      offeredByUserId := d.offeredByUserId, createdAt := now }
  (s, { st with services := st.services ++ [s], nextId := st.nextId + 1 })

/-- Model of `MemStorage.getServicesByUser` (`storage.ts` lines 107-111):
`filter(service => service.offeredByUserId === userId)`. -/
def getServicesByUser (userId : Nat) (st : State) : List Service :=
  st.services.filter (fun s => s.offeredByUserId == userId)

end MemStorage

/-- JavaScript truthiness of a possibly-absent string field of a JSON body:
`undefined`, `null` and `""` are falsy. -/
def truthy (s : Option String) : Bool :=
  match s with
  | some s => !(s == "")
  | none => false

/-- Normalization `phone.replace(/\D/g, "")`: strip every non-digit character. -/
def normalizePhone (s : String) : String :=
  String.mk (s.data.filter Char.isDigit)

/-- Outcome of `POST /api/auth/send-otp` (`routes.ts` lines 11-50).
`invalidInput` carries the 400 error message; `ok` carries the
`developmentOtp` echoed in the response body. -/
inductive SendResult where
  | invalidInput (msg : String)
  | ok (developmentOtp : String)
deriving Repr, DecidableEq

/-- The JSON body of `POST /api/auth/verify-otp` (`routes.ts` line 55). -/
structure VerifyBody where
  phone : Option String
  otp : Option String
  name : Option String
  flat : Option String
  floor : Option String
  block : Option String
  role : Option String
deriving Repr, DecidableEq

/-- The user projection returned by `POST /api/auth/verify-otp`
(`routes.ts` lines 104-113): every stored field except `createdAt`. -/
structure UserResponse where
  id : Nat
  name : String
  phone : String
  flat : String
  floor : String
  block : String
  role : String
  isVerified : Bool
deriving Repr, DecidableEq

def projectUser (u : User) : UserResponse :=
  { id := u.id, name := u.name, phone := u.phone, flat := u.flat,
    floor := u.floor, block := u.block, role := u.role,
    isVerified := u.isVerified }

/-- Outcome of `POST /api/auth/verify-otp` (`routes.ts` lines 53-127):
the five distinct responses of the handler. -/
inductive VerifyResult where
  | invalidInput
  | invalidOrExpiredOtp
  | missingRegistrationFields
  | validationError
  | updateFailed
  | ok (user : UserResponse)
deriving Repr, DecidableEq

/-- Validation `insertUserSchema.parse` (`schema.ts` lines 37-44): drizzle-zod maps the
`role` column, declared `text("role", { enum: ["resident", "president"] })`,
to a zod enum, so `parse` throws a `ZodError` for any other role value; the
remaining picked columns are plain `z.string()` checks, vacuous here because
the model's fields are strings by type. `none` models the thrown `ZodError`. -/
def parseInsertUser (name phone flat floor block role : String) :
    Option InsertUser :=
  if role == "resident" || role == "president" then
    some { name := name, phone := phone, flat := flat, floor := floor,
           block := block, role := role }
  else
    none

/-- Handler `POST /api/auth/send-otp` (`routes.ts` lines 11-50): require a truthy
phone, normalize it, require at least 10 digits, generate the 6-digit code
`Math.floor(100000 + Math.random() * 900000)`, set expiry to `now + 5min`,
persist via `createOtp`, and echo the code. -/
def sendOtp (now rnd : Nat) (phone? : Option String) (st : State) :
    SendResult × State :=
  if truthy phone? then
    let cleanPhone := normalizePhone (phone?.getD "")
    if cleanPhone.length < 10 then
      (.invalidInput "Invalid phone number format", st)
    else
      let code := toString (100000 + rnd % 900000)
      let expiresAt := now + 5 * 60 * 1000
      let (_, st1) := MemStorage.createOtp cleanPhone code expiresAt now st
      (.ok code, st1)
  else
    (.invalidInput "Phone number is required", st)

/-- The verified-user epilogue of `POST /api/auth/verify-otp`
(`routes.ts` lines 95-114): `updateUser(user.id, { isVerified: true })`,
500 if the update misses, else respond with the user projection. -/
def finishVerify (user : User) (st : State) : VerifyResult × State :=
  match MemStorage.updateUser user.id { isVerified := some true } st with
  | (none, st') => (.updateFailed, st')
  | (some u, st') => (.ok (projectUser u), st')

/-- Handler `POST /api/auth/verify-otp` (`routes.ts` lines 53-127): require truthy
phone and otp, normalize the phone, look up a valid OTP (fail
`invalidOrExpiredOtp` if none), mark it used, then branch on
`getUserByPhone`: an existing user is verified as-is; a new user requires
all five truthy profile fields (else `missingRegistrationFields`), is
schema-validated (a `ZodError` yields `validationError`), created, and
verified. -/
def verifyOtp (now : Nat) (body : VerifyBody) (st : State) :
    VerifyResult × State :=
  if truthy body.phone && truthy body.otp then
    let cleanPhone := normalizePhone (body.phone.getD "")
    let code := body.otp.getD ""
    match MemStorage.getValidOtp cleanPhone code now st with
    | none => (.invalidOrExpiredOtp, st)
    | some validOtp =>
      let st1 := MemStorage.markOtpAsUsed validOtp.id st
      match MemStorage.getUserByPhone cleanPhone st1 with
      | some user => finishVerify user st1
      | none =>
        if truthy body.name && truthy body.flat && truthy body.floor &&
            truthy body.block && truthy body.role then
          match parseInsertUser (body.name.getD "") cleanPhone
              (body.flat.getD "") (body.floor.getD "") (body.block.getD "")
              (body.role.getD "") with
          | none => (.validationError, st1)
          | some d =>
            let (user, st2) := MemStorage.createUser d now st1
            finishVerify user st2
        else
          (.missingRegistrationFields, st1)
  else
    (.invalidInput, st)

/-! ## Helper lemmas: branch equations for the handlers -/

theorem truthy_and_true_of (hp : truthy p = true) (hc : truthy c = true) :
    (truthy p && truthy c) = true := by
  rw [hp, hc]
  rfl

theorem verifyOtp_of_not_truthy (now : Nat) (body : VerifyBody) (st : State)
    (hb : (truthy body.phone && truthy body.otp) = false) :
    verifyOtp now body st = (.invalidInput, st) := by
  unfold verifyOtp
  rw [hb]
  rfl

theorem verifyOtp_of_no_valid_otp (now : Nat) (body : VerifyBody) (st : State)
    (hb : (truthy body.phone && truthy body.otp) = true)
    (hfind : MemStorage.getValidOtp (normalizePhone (body.phone.getD ""))
      (body.otp.getD "") now st = none) :
    verifyOtp now body st = (.invalidOrExpiredOtp, st) := by
  unfold verifyOtp
  simp only [hb, if_true, hfind]

theorem verifyOtp_of_existing_user (now : Nat) (body : VerifyBody) (st : State)
    (o : Otp) (u : User)
    (hb : (truthy body.phone && truthy body.otp) = true)
    (hfind : MemStorage.getValidOtp (normalizePhone (body.phone.getD ""))
      (body.otp.getD "") now st = some o)
    (huser : MemStorage.getUserByPhone (normalizePhone (body.phone.getD ""))
      (MemStorage.markOtpAsUsed o.id st) = some u) :
    verifyOtp now body st = finishVerify u (MemStorage.markOtpAsUsed o.id st) := by
  unfold verifyOtp
  simp only [hb, if_true, hfind, huser]

theorem verifyOtp_of_missing_fields (now : Nat) (body : VerifyBody) (st : State)
    (o : Otp)
    (hb : (truthy body.phone && truthy body.otp) = true)
    (hfind : MemStorage.getValidOtp (normalizePhone (body.phone.getD ""))
      (body.otp.getD "") now st = some o)
    (huser : MemStorage.getUserByPhone (normalizePhone (body.phone.getD ""))
      (MemStorage.markOtpAsUsed o.id st) = none)
    (hmiss : (truthy body.name && truthy body.flat && truthy body.floor &&
      truthy body.block && truthy body.role) = false) :
    verifyOtp now body st =
      (.missingRegistrationFields, MemStorage.markOtpAsUsed o.id st) := by
  unfold verifyOtp
  simp only [hb, if_true, hfind, huser, hmiss, Bool.false_eq_true, if_false]

theorem verifyOtp_of_bad_payload (now : Nat) (body : VerifyBody) (st : State)
    (o : Otp)
    (hb : (truthy body.phone && truthy body.otp) = true)
    (hfind : MemStorage.getValidOtp (normalizePhone (body.phone.getD ""))
      (body.otp.getD "") now st = some o)
    (huser : MemStorage.getUserByPhone (normalizePhone (body.phone.getD ""))
      (MemStorage.markOtpAsUsed o.id st) = none)
    (hall : (truthy body.name && truthy body.flat && truthy body.floor &&
      truthy body.block && truthy body.role) = true)
    (hparse : parseInsertUser (body.name.getD "")
      (normalizePhone (body.phone.getD "")) (body.flat.getD "")
      (body.floor.getD "") (body.block.getD "") (body.role.getD "") = none) :
    verifyOtp now body st =
      (.validationError, MemStorage.markOtpAsUsed o.id st) := by
  unfold verifyOtp
  simp only [hb, if_true, hfind, huser, hall, hparse]

theorem verifyOtp_of_new_user (now : Nat) (body : VerifyBody) (st : State)
    (o : Otp) (d : InsertUser)
    (hb : (truthy body.phone && truthy body.otp) = true)
    (hfind : MemStorage.getValidOtp (normalizePhone (body.phone.getD ""))
      (body.otp.getD "") now st = some o)
    (huser : MemStorage.getUserByPhone (normalizePhone (body.phone.getD ""))
      (MemStorage.markOtpAsUsed o.id st) = none)
    (hall : (truthy body.name && truthy body.flat && truthy body.floor &&
      truthy body.block && truthy body.role) = true)
    (hparse : parseInsertUser (body.name.getD "")
      (normalizePhone (body.phone.getD "")) (body.flat.getD "")
      (body.floor.getD "") (body.block.getD "") (body.role.getD "") = some d) :
    verifyOtp now body st =
      finishVerify
        (MemStorage.createUser d now (MemStorage.markOtpAsUsed o.id st)).1
        (MemStorage.createUser d now (MemStorage.markOtpAsUsed o.id st)).2 := by
  unfold verifyOtp
  simp only [hb, if_true, hfind, huser, hall, hparse]

theorem finishVerify_cases (u : User) (st : State) :
    (finishVerify u st).1 = .updateFailed ∨
    ∃ r, (finishVerify u st).1 = .ok r := by
  unfold finishVerify MemStorage.updateUser
  cases h : st.users.find? (fun x => x.id == u.id) <;> simp [h]

theorem finishVerify_otps (u : User) (st : State) :
    ((finishVerify u st).2).otps = st.otps := by
  unfold finishVerify MemStorage.updateUser
  cases h : st.users.find? (fun x => x.id == u.id) <;> simp [h]

theorem markOtpAsUsed_users (i : Nat) (st : State) :
    (MemStorage.markOtpAsUsed i st).users = st.users := rfl

theorem getValidOtp_pred_iff (now : Nat) (clean code : String) (o : Otp) :
    (o.phone == clean && o.otp == code && !o.isUsed &&
      decide (now < o.expiresAt)) = true ↔
    (o.phone = clean ∧ o.otp = code ∧ o.isUsed = false ∧ now < o.expiresAt) := by
  simp [Bool.and_eq_true, Bool.not_eq_true', and_assoc]

theorem verifyOtp_fst_of_found (now : Nat) (body : VerifyBody) (st : State)
    (o : Otp)
    (hb : (truthy body.phone && truthy body.otp) = true)
    (hfind : MemStorage.getValidOtp (normalizePhone (body.phone.getD ""))
      (body.otp.getD "") now st = some o) :
    (verifyOtp now body st).1 = .missingRegistrationFields ∨
    (verifyOtp now body st).1 = .validationError ∨
    (verifyOtp now body st).1 = .updateFailed ∨
    ∃ r, (verifyOtp now body st).1 = .ok r := by
  cases huser : MemStorage.getUserByPhone (normalizePhone (body.phone.getD ""))
      (MemStorage.markOtpAsUsed o.id st) with
  | some u =>
    rw [verifyOtp_of_existing_user now body st o u hb hfind huser]
    rcases finishVerify_cases u (MemStorage.markOtpAsUsed o.id st) with h | ⟨r, h⟩
    · exact Or.inr (Or.inr (Or.inl h))
    · exact Or.inr (Or.inr (Or.inr ⟨r, h⟩))
  | none =>
    cases hall : (truthy body.name && truthy body.flat && truthy body.floor &&
        truthy body.block && truthy body.role) with
    | false =>
      rw [verifyOtp_of_missing_fields now body st o hb hfind huser hall]
      exact Or.inl rfl
    | true =>
      cases hparse : parseInsertUser (body.name.getD "")
          (normalizePhone (body.phone.getD "")) (body.flat.getD "")
          (body.floor.getD "") (body.block.getD "") (body.role.getD "") with
      | none =>
        rw [verifyOtp_of_bad_payload now body st o hb hfind huser hall hparse]
        exact Or.inr (Or.inl rfl)
      | some d =>
        rw [verifyOtp_of_new_user now body st o d hb hfind huser hall hparse]
        rcases finishVerify_cases
            (MemStorage.createUser d now (MemStorage.markOtpAsUsed o.id st)).1
            (MemStorage.createUser d now (MemStorage.markOtpAsUsed o.id st)).2
          with h | ⟨r, h⟩
        · exact Or.inr (Or.inr (Or.inl h))
        · exact Or.inr (Or.inr (Or.inr ⟨r, h⟩))

/-! ## Concrete fixtures used by witnesses and counterexamples -/

def otpA : Otp :=
  { id := 0, phone := "5551234567", otp := "482913", expiresAt := 1000,
    isUsed := false, createdAt := 0 }

def stA : State :=
  { users := [], otps := [otpA], services := [], nextId := 1 }

def bodyA : VerifyBody :=
  { phone := some "555-123-4567", otp := some "482913", name := some "Asha",
    flat := some "12", floor := some "3", block := some "B",
    role := some "resident" }

/-! ## Claims -/

/-- C1: with non-empty phone and code, `verifyOtp` accepts the OTP (does not
fail `InvalidOrExpiredOtp`) if and only if some `OtpVerification` record has
phone equal to the digits-only normalization of the input phone, code equal
to the exact code string, `isUsed = false`, and `expiresAt` strictly greater
than the current time; when no such record exists the call fails
`InvalidOrExpiredOtp` and leaves the state untouched. -/
theorem verifyOtp_accepts_iff_valid_record (now : Nat) (body : VerifyBody)
    (st : State) (hp : truthy body.phone = true)
    (hc : truthy body.otp = true) :
    ((∃ r ∈ st.otps, r.phone = normalizePhone (body.phone.getD "") ∧
        r.otp = body.otp.getD "" ∧ r.isUsed = false ∧ now < r.expiresAt) ↔
      (verifyOtp now body st).1 ≠ .invalidOrExpiredOtp) ∧
    ((verifyOtp now body st).1 = .invalidOrExpiredOtp →
      (verifyOtp now body st).2 = st) := by
  have hb := truthy_and_true_of hp hc
  cases hfind : MemStorage.getValidOtp (normalizePhone (body.phone.getD ""))
      (body.otp.getD "") now st with
  | none =>
    rw [verifyOtp_of_no_valid_otp now body st hb hfind]
    refine ⟨⟨?_, ?_⟩, fun _ => rfl⟩
    · rintro ⟨r, hr, h1, h2, h3, h4⟩
      have hnone := List.find?_eq_none.mp hfind r hr
      exact absurd ((getValidOtp_pred_iff now _ _ r).mpr ⟨h1, h2, h3, h4⟩) hnone
    · intro h
      exact absurd rfl h
  | some o =>
    have hmem : o ∈ st.otps := List.mem_of_find?_eq_some hfind
    have hpred := List.find?_some hfind
    have hprops := (getValidOtp_pred_iff now _ _ o).mp hpred
    constructor
    · constructor
      · intro _
        rcases verifyOtp_fst_of_found now body st o hb hfind with
          h | h | h | ⟨r, h⟩ <;> rw [h] <;> intro hcontra <;> cases hcontra
      · intro _
        exact ⟨o, hmem, hprops⟩
    · intro h
      rcases verifyOtp_fst_of_found now body st o hb hfind with
        h1 | h1 | h1 | ⟨r, h1⟩ <;> rw [h1] at h <;> cases h

/-- Witness for C1: the spec example scenario (phone `555-123-4567`, code
`482913`, matching unused unexpired record) is accepted. -/
theorem verifyOtp_accepts_iff_valid_record_witness :
    (verifyOtp 500 bodyA stA).1 ≠ .invalidOrExpiredOtp :=
  (verifyOtp_accepts_iff_valid_record 500 bodyA stA rfl rfl).1.mp
    ⟨otpA, by decide, by decide, by decide, by decide, by decide⟩

theorem createUser_otps (d : InsertUser) (now : Nat) (st : State) :
    ((MemStorage.createUser d now st).2).otps = st.otps := rfl

theorem verifyOtp_otps_of_found (now : Nat) (body : VerifyBody) (st : State)
    (o : Otp)
    (hb : (truthy body.phone && truthy body.otp) = true)
    (hfind : MemStorage.getValidOtp (normalizePhone (body.phone.getD ""))
      (body.otp.getD "") now st = some o) :
    ((verifyOtp now body st).2).otps =
      (MemStorage.markOtpAsUsed o.id st).otps := by
  cases huser : MemStorage.getUserByPhone (normalizePhone (body.phone.getD ""))
      (MemStorage.markOtpAsUsed o.id st) with
  | some u =>
    rw [verifyOtp_of_existing_user now body st o u hb hfind huser]
    exact finishVerify_otps u _
  | none =>
    cases hall : (truthy body.name && truthy body.flat && truthy body.floor &&
        truthy body.block && truthy body.role) with
    | false =>
      rw [verifyOtp_of_missing_fields now body st o hb hfind huser hall]
    | true =>
      cases hparse : parseInsertUser (body.name.getD "")
          (normalizePhone (body.phone.getD "")) (body.flat.getD "")
          (body.floor.getD "") (body.block.getD "") (body.role.getD "") with
      | none =>
        rw [verifyOtp_of_bad_payload now body st o hb hfind huser hall hparse]
      | some d =>
        rw [verifyOtp_of_new_user now body st o d hb hfind huser hall hparse]
        rw [finishVerify_otps, createUser_otps]

theorem getValidOtp_none_after_mark (clean code : String) (now now' : Nat)
    (st : State) (o : Otp)
    (hfind : MemStorage.getValidOtp clean code now st = some o)
    (huniq : ∀ r1 ∈ st.otps, ∀ r2 ∈ st.otps,
      r1.phone = clean → r1.otp = code → r1.isUsed = false →
      r2.phone = clean → r2.otp = code → r2.isUsed = false → r1 = r2)
    (st' : State)
    (hotps : st'.otps = (MemStorage.markOtpAsUsed o.id st).otps) :
    MemStorage.getValidOtp clean code now' st' = none := by
  unfold MemStorage.getValidOtp at hfind
  have hmem : o ∈ st.otps := List.mem_of_find?_eq_some hfind
  have hpo := List.find?_some hfind
  have hprops := (getValidOtp_pred_iff now clean code o).mp hpo
  unfold MemStorage.getValidOtp
  rw [hotps]
  apply List.find?_eq_none.mpr
  intro y hy hpredy
  unfold MemStorage.markOtpAsUsed at hy
  simp only [List.mem_map] at hy
  obtain ⟨x, hx, rfl⟩ := hy
  have hyprops := (getValidOtp_pred_iff now' _ _ _).mp hpredy
  by_cases hid : x.id = o.id
  · simp only [hid, beq_self_eq_true, if_true] at hyprops
    exact absurd hyprops.2.2.1 (by simp)
  · have hbeq : (x.id == o.id) = false := by
      exact beq_eq_false_iff_ne.mpr hid
    simp only [hbeq, Bool.false_eq_true, if_false] at hyprops
    exact hid (congrArg Otp.id
      (huniq x hx o hmem hyprops.1 hyprops.2.1 hyprops.2.2.1
        hprops.1 hprops.2.1 hprops.2.2.1))

/-- C2: once `verifyOtp` has succeeded on a `(phone, code)` pair, the consumed
record is marked used; provided no other unused record matched the same pair,
a second `verifyOtp` call with the same pair, at any later time, fails with
`InvalidOrExpiredOtp`. -/
theorem verifyOtp_used_otp_never_revalidates (now now' : Nat)
    (body body' : VerifyBody) (st : State)
    (_hlater : now ≤ now')
    (hph : body'.phone = body.phone) (hot : body'.otp = body.otp)
    (hsucc : ∃ u, (verifyOtp now body st).1 = .ok u)
    (huniq : ∀ r1 ∈ st.otps, ∀ r2 ∈ st.otps,
      r1.phone = normalizePhone (body.phone.getD "") →
      r1.otp = body.otp.getD "" → r1.isUsed = false →
      r2.phone = normalizePhone (body.phone.getD "") →
      r2.otp = body.otp.getD "" → r2.isUsed = false → r1 = r2) :
    (verifyOtp now' body' ((verifyOtp now body st).2)).1 =
      .invalidOrExpiredOtp := by
  obtain ⟨u, hsucc⟩ := hsucc
  cases hb : (truthy body.phone && truthy body.otp) with
  | false =>
    rw [verifyOtp_of_not_truthy now body st hb] at hsucc
    cases hsucc
  | true =>
    cases hfind : MemStorage.getValidOtp (normalizePhone (body.phone.getD ""))
        (body.otp.getD "") now st with
    | none =>
      rw [verifyOtp_of_no_valid_otp now body st hb hfind] at hsucc
      cases hsucc
    | some o =>
      have hotps := verifyOtp_otps_of_found now body st o hb hfind
      have hnone := getValidOtp_none_after_mark _ _ now now' st o hfind huniq
        ((verifyOtp now body st).2) hotps
      have hb' : (truthy body'.phone && truthy body'.otp) = true := by
        rw [hph, hot]; exact hb
      have hnone' : MemStorage.getValidOtp
          (normalizePhone (body'.phone.getD "")) (body'.otp.getD "") now'
          ((verifyOtp now body st).2) = none := by
        rw [hph, hot]; exact hnone
      rw [verifyOtp_of_no_valid_otp now' body' _ hb' hnone']

/-- Witness for C2: the first call on the example fixture succeeds
(registering the new user), and replaying the same pair later fails. -/
theorem verifyOtp_used_otp_never_revalidates_witness :
    (verifyOtp 2000 bodyA (verifyOtp 500 bodyA stA).2).1 =
      .invalidOrExpiredOtp :=
  verifyOtp_used_otp_never_revalidates 500 2000 bodyA bodyA stA
    (by decide) rfl rfl
    ⟨{ id := 1, name := "Asha", phone := "5551234567", flat := "12",
       floor := "3", block := "B", role := "resident", isVerified := true },
     by decide⟩
    (by decide)

/-- C3: `sendOtp` with a present phone that normalizes to at least 10 digits
succeeds, generates a code whose numeric value lies in `[100000, 999999]`,
sets `expiresAt` to exactly the issuance time plus 5 minutes, and appends one
OTP record keyed to the normalized phone; any other input fails with a 400
`invalidInput` response and leaves the state unchanged. -/
theorem sendOtp_spec (now rnd : Nat) (phone? : Option String) (st : State) :
    ((truthy phone? = true ∧
        10 ≤ (normalizePhone (phone?.getD "")).length) →
      ∃ n, 100000 ≤ n ∧ n ≤ 999999 ∧
        sendOtp now rnd phone? st =
          (.ok (toString n),
           { st with
             otps := st.otps ++
               [{ id := st.nextId,
                  phone := normalizePhone (phone?.getD ""),
                  otp := toString n,
                  expiresAt := now + 5 * 60 * 1000,
                  isUsed := false, createdAt := now }],
             nextId := st.nextId + 1 })) ∧
    (¬(truthy phone? = true ∧
        10 ≤ (normalizePhone (phone?.getD "")).length) →
      (∃ msg, (sendOtp now rnd phone? st).1 = .invalidInput msg) ∧
      (sendOtp now rnd phone? st).2 = st) := by
  constructor
  · rintro ⟨hp, hlen⟩
    refine ⟨100000 + rnd % 900000, by omega, ?_, ?_⟩
    · have := Nat.mod_lt rnd (show 0 < 900000 by omega)
      omega
    · have hlt : ¬ ((normalizePhone (phone?.getD "")).length < 10) := by
        omega
      unfold sendOtp MemStorage.createOtp
      simp only [hp, if_true, hlt, if_false]
  · intro h
    by_cases hp : truthy phone? = true
    · have hlen : (normalizePhone (phone?.getD "")).length < 10 := by
        by_contra hlen
        exact h ⟨hp, by omega⟩
      unfold sendOtp
      simp only [hp, if_true, hlen, if_true]
      exact ⟨⟨"Invalid phone number format", rfl⟩, trivial⟩
    · have hp' : truthy phone? = false := by
        cases htp : truthy phone? with
        | false => rfl
        | true => exact absurd htp hp
      unfold sendOtp
      simp only [hp', Bool.false_eq_true, if_false]
      exact ⟨⟨"Phone number is required", rfl⟩, trivial⟩

/-- Witness for C3: issuing an OTP for `555-123-4567` stores exactly one
record. -/
theorem sendOtp_spec_witness :
    ((sendOtp 0 7 (some "555-123-4567") State.empty).2).otps.length = 1 := by
  obtain ⟨n, -, -, heq⟩ :=
    (sendOtp_spec 0 7 (some "555-123-4567") State.empty).1 ⟨rfl, by decide⟩
  rw [heq]
  rfl

/-- States produced from the empty store by `sendOtp` calls only
(OTP issuance, no verification). -/
inductive SendReachable : State → Prop where
  | empty : SendReachable State.empty
  | step (now rnd : Nat) (phone? : Option String) (st : State) :
      SendReachable st → SendReachable (sendOtp now rnd phone? st).2

theorem sendOtp_otps_cases (now rnd : Nat) (phone? : Option String)
    (st : State) :
    ((sendOtp now rnd phone? st).2).otps = st.otps ∨
    (truthy phone? = true ∧
     10 ≤ (normalizePhone (phone?.getD "")).length ∧
     ((sendOtp now rnd phone? st).2).otps = st.otps ++
       [{ id := st.nextId, phone := normalizePhone (phone?.getD ""),
          otp := toString (100000 + rnd % 900000),
          expiresAt := now + 5 * 60 * 1000, isUsed := false,
          createdAt := now }]) := by
  by_cases hp : truthy phone? = true
  · by_cases hlen : (normalizePhone (phone?.getD "")).length < 10
    · left
      unfold sendOtp
      simp only [hp, if_true, hlen, if_true]
    · right
      refine ⟨hp, by omega, ?_⟩
      unfold sendOtp MemStorage.createOtp
      simp only [hp, if_true, hlen, if_false]
  · left
    have hp' : truthy phone? = false := by
      cases htp : truthy phone? with
      | false => rfl
      | true => exact absurd htp hp
    unfold sendOtp
    simp only [hp', Bool.false_eq_true, if_false]

theorem sendReachable_phones_long (st : State) (h : SendReachable st) :
    ∀ r ∈ st.otps, 10 ≤ r.phone.length := by
  induction h with
  | empty =>
    intro r hr
    cases hr
  | step now rnd phone? st hst ih =>
    intro r hr
    rcases sendOtp_otps_cases now rnd phone? st with heq | ⟨hp, hlen, heq⟩
    · rw [heq] at hr
      exact ih r hr
    · rw [heq] at hr
      rcases List.mem_append.mp hr with h1 | h1
      · exact ih r h1
      · have := List.mem_singleton.mp h1
        subst this
        exact hlen

/-- C10: `verifyOtp` never rejects a non-empty phone/code pair as
`InvalidInput`, even when the phone normalizes to fewer than 10 digits; and
on any state built only from `sendOtp` issuances (which store 10+-digit
normalized phones exclusively), such a short-phone call fails with
`InvalidOrExpiredOtp`. -/
theorem verifyOtp_no_phone_length_validation (now : Nat) (body : VerifyBody)
    (st : State) (hp : truthy body.phone = true)
    (hc : truthy body.otp = true) :
    (verifyOtp now body st).1 ≠ .invalidInput ∧
    (SendReachable st → (normalizePhone (body.phone.getD "")).length < 10 →
      (verifyOtp now body st).1 = .invalidOrExpiredOtp) := by
  have hb := truthy_and_true_of hp hc
  constructor
  · cases hfind : MemStorage.getValidOtp (normalizePhone (body.phone.getD ""))
        (body.otp.getD "") now st with
    | none =>
      rw [verifyOtp_of_no_valid_otp now body st hb hfind]
      intro h
      cases h
    | some o =>
      rcases verifyOtp_fst_of_found now body st o hb hfind with
        h | h | h | ⟨r, h⟩ <;> rw [h] <;> intro hx <;> cases hx
  · intro hreach hshort
    have hnone : MemStorage.getValidOtp (normalizePhone (body.phone.getD ""))
        (body.otp.getD "") now st = none := by
      unfold MemStorage.getValidOtp
      apply List.find?_eq_none.mpr
      intro r hr hpred
      have hlong := sendReachable_phones_long st hreach r hr
      have hprops := (getValidOtp_pred_iff now
        (normalizePhone (body.phone.getD "")) (body.otp.getD "") r).mp hpred
      rw [hprops.1] at hlong
      omega
    rw [verifyOtp_of_no_valid_otp now body st hb hnone]

def bodyShort : VerifyBody :=
  { phone := some "123", otp := some "111111", name := none, flat := none,
    floor := none, block := none, role := none }

/-- Witness for C10: a 3-digit phone with non-empty code on the empty
(send-only) store fails with `InvalidOrExpiredOtp`, not `InvalidInput`. -/
theorem verifyOtp_no_phone_length_validation_witness :
    (verifyOtp 0 bodyShort State.empty).1 = .invalidOrExpiredOtp :=
  (verifyOtp_no_phone_length_validation 0 bodyShort State.empty rfl rfl).2
    SendReachable.empty (by decide)

def bodyNoName : VerifyBody :=
  { phone := some "5551234567", otp := some "111111", name := none,
    flat := some "7", floor := some "1", block := some "A",
    role := some "resident" }

def bodyFull : VerifyBody :=
  { phone := some "5551234567", otp := some "111111", name := some "Asha",
    flat := some "7", floor := some "1", block := some "A",
    role := some "resident" }

def otpB1 : Otp :=
  { id := 0, phone := "5551234567", otp := "111111", expiresAt := 1000,
    isUsed := false, createdAt := 0 }

def otpB2 : Otp :=
  { id := 1, phone := "5551234567", otp := "111111", expiresAt := 1000,
    isUsed := false, createdAt := 0 }

def stTwoOtps : State :=
  { users := [], otps := [otpB1, otpB2], services := [], nextId := 2 }

def stOneOtp : State :=
  { users := [], otps := [otpB1], services := [], nextId := 1 }

/-- Counterexample to C4 as stated: with two valid records for the same
`(phone, code)` pair and no user, the first call fails
`MissingRegistrationFields` after consuming one record, and resubmitting the
same pair fails `MissingRegistrationFields` again (consuming the second
record), not `InvalidOrExpiredOtp`. -/
theorem verifyOtp_retry_after_missing_fields_not_always_rejected :
    (verifyOtp 0 bodyNoName stTwoOtps).1 = .missingRegistrationFields ∧
    (verifyOtp 0 bodyNoName (verifyOtp 0 bodyNoName stTwoOtps).2).1 =
      .missingRegistrationFields ∧
    (verifyOtp 0 bodyNoName (verifyOtp 0 bodyNoName stTwoOtps).2).1 ≠
      .invalidOrExpiredOtp := by
  refine ⟨by decide, by decide, by decide⟩

/-- C4 (amended): when `verifyOtp` finds a valid OTP but fails with
`MissingRegistrationFields`, the matched record remains marked used in the
resulting state; provided it was the only unused matching record, any
resubmission of the same `(phone, code)` pair fails `InvalidOrExpiredOtp`
rather than retrying cleanly. -/
theorem verifyOtp_missing_fields_consumes_otp (now now' : Nat)
    (body body' : VerifyBody) (st : State)
    (hph : body'.phone = body.phone) (hot : body'.otp = body.otp)
    (hfail : (verifyOtp now body st).1 = .missingRegistrationFields)
    (huniq : ∀ r1 ∈ st.otps, ∀ r2 ∈ st.otps,
      r1.phone = normalizePhone (body.phone.getD "") →
      r1.otp = body.otp.getD "" → r1.isUsed = false →
      r2.phone = normalizePhone (body.phone.getD "") →
      r2.otp = body.otp.getD "" → r2.isUsed = false → r1 = r2) :
    (∃ r ∈ ((verifyOtp now body st).2).otps,
      r.phone = normalizePhone (body.phone.getD "") ∧
      r.otp = body.otp.getD "" ∧ r.isUsed = true) ∧
    (verifyOtp now' body' ((verifyOtp now body st).2)).1 =
      .invalidOrExpiredOtp := by
  cases hb : (truthy body.phone && truthy body.otp) with
  | false =>
    rw [verifyOtp_of_not_truthy now body st hb] at hfail
    cases hfail
  | true =>
    cases hfind : MemStorage.getValidOtp (normalizePhone (body.phone.getD ""))
        (body.otp.getD "") now st with
    | none =>
      rw [verifyOtp_of_no_valid_otp now body st hb hfind] at hfail
      cases hfail
    | some o =>
      have hotps := verifyOtp_otps_of_found now body st o hb hfind
      have hnone := getValidOtp_none_after_mark _ _ now now' st o hfind huniq
        ((verifyOtp now body st).2) hotps
      constructor
      · unfold MemStorage.getValidOtp at hfind
        have hmem : o ∈ st.otps := List.mem_of_find?_eq_some hfind
        have hpo := List.find?_some hfind
        have hprops := (getValidOtp_pred_iff now
          (normalizePhone (body.phone.getD "")) (body.otp.getD "") o).mp hpo
        refine ⟨{ o with isUsed := true }, ?_, hprops.1, hprops.2.1, rfl⟩
        rw [hotps]
        unfold MemStorage.markOtpAsUsed
        simp only [List.mem_map]
        exact ⟨o, hmem, by simp⟩
      · have hb' : (truthy body'.phone && truthy body'.otp) = true := by
          rw [hph, hot]; exact hb
        have hnone' : MemStorage.getValidOtp
            (normalizePhone (body'.phone.getD "")) (body'.otp.getD "") now'
            ((verifyOtp now body st).2) = none := by
          rw [hph, hot]; exact hnone
        rw [verifyOtp_of_no_valid_otp now' body' _ hb' hnone']

/-- Witness for C4 (amended): one valid record, no user, missing `name`; the
record is consumed and resubmitting with the full profile is rejected. -/
theorem verifyOtp_missing_fields_consumes_otp_witness :
    (verifyOtp 1 bodyFull (verifyOtp 0 bodyNoName stOneOtp).2).1 =
      .invalidOrExpiredOtp :=
  (verifyOtp_missing_fields_consumes_otp 0 1 bodyNoName bodyFull stOneOtp
    rfl rfl (by decide) (by decide)).2

theorem list_map_fixed {α : Type} (f : α → α) (l : List α)
    (h : ∀ x ∈ l, f x = x) : l.map f = l := by
  induction l with
  | nil => rfl
  | cons a t ih =>
    have ih' := ih (fun x hx => h x (List.mem_cons_of_mem a hx))
    rw [List.map_cons, h a (List.mem_cons_self a t), ih']

theorem find?_append_singleton (l : List User) (u : User)
    (hfresh : ∀ x ∈ l, x.id ≠ u.id) :
    (l ++ [u]).find? (fun x => x.id == u.id) = some u := by
  induction l with
  | nil => simp [List.find?]
  | cons a t ih =>
    have ha : (a.id == u.id) = false :=
      beq_eq_false_iff_ne.mpr (hfresh a (List.mem_cons_self a t))
    rw [List.cons_append]
    rw [List.find?_cons_of_neg (p := fun x => x.id == u.id) (a := a)
      (t ++ [u]) (by simp [ha])]
    exact ih (fun x hx => hfresh x (List.mem_cons_of_mem a hx))

theorem finishVerify_fresh (u : User) (st : State)
    (hfind : st.users.find? (fun x => x.id == u.id) = some u) :
    finishVerify u st =
      (.ok (projectUser { u with isVerified := true }),
       { st with users := st.users.map (fun x =>
           if x.id == u.id then { u with isVerified := true } else x) }) := by
  unfold finishVerify MemStorage.updateUser
  rw [hfind]
  rfl

def bodyAdmin : VerifyBody :=
  { phone := some "5551234567", otp := some "111111", name := some "Asha",
    flat := some "7", floor := some "1", block := some "A",
    role := some "admin" }

/-- Counterexample to C5 as stated: with a valid OTP, no existing user, and
all five profile fields supplied but `role = "admin"`, the call does not
succeed: schema validation rejects the payload (`ZodError`, 400) and no user
is created. -/
theorem verifyOtp_all_fields_supplied_can_still_fail :
    (verifyOtp 0 bodyAdmin stOneOtp).1 = .validationError ∧
    ((verifyOtp 0 bodyAdmin stOneOtp).2).users = [] := by
  refine ⟨by decide, by decide⟩

/-- C5 (amended): with a valid OTP and no user for the normalized phone, a
missing (or empty) profile field fails `MissingRegistrationFields`; when all
five fields are supplied and the role is a valid enum value, the call
succeeds, appends a new user (created by the storage layer with
`isVerified = false`, as the last conjunct states), and returns it with
`isVerified = true`. -/
theorem verifyOtp_new_user_registration (now : Nat) (body : VerifyBody)
    (st : State) (o : Otp)
    (hp : truthy body.phone = true) (hc : truthy body.otp = true)
    (hfind : MemStorage.getValidOtp (normalizePhone (body.phone.getD ""))
      (body.otp.getD "") now st = some o)
    (hnouser : MemStorage.getUserByPhone
      (normalizePhone (body.phone.getD "")) st = none)
    (hfresh : ∀ x ∈ st.users, x.id ≠ st.nextId) :
    ((truthy body.name && truthy body.flat && truthy body.floor &&
        truthy body.block && truthy body.role) = false →
      (verifyOtp now body st).1 = .missingRegistrationFields) ∧
    ((truthy body.name && truthy body.flat && truthy body.floor &&
        truthy body.block && truthy body.role) = true →
      (body.role.getD "" = "resident" ∨ body.role.getD "" = "president") →
      (verifyOtp now body st).1 =
        .ok { id := st.nextId, name := body.name.getD "",
              phone := normalizePhone (body.phone.getD ""),
              flat := body.flat.getD "", floor := body.floor.getD "",
              block := body.block.getD "", role := body.role.getD "",
              isVerified := true } ∧
      ((verifyOtp now body st).2).users = st.users ++
        [{ id := st.nextId, name := body.name.getD "",
           phone := normalizePhone (body.phone.getD ""),
           flat := body.flat.getD "", floor := body.floor.getD "",
           block := body.block.getD "", role := body.role.getD "",
           isVerified := true, createdAt := now }]) ∧
    (∀ d t s, ((MemStorage.createUser d t s).1).isVerified = false) := by
  have hb := truthy_and_true_of hp hc
  have huser' : MemStorage.getUserByPhone
      (normalizePhone (body.phone.getD ""))
      (MemStorage.markOtpAsUsed o.id st) = none := hnouser
  refine ⟨?_, ?_, fun d t s => rfl⟩
  · intro hmiss
    rw [verifyOtp_of_missing_fields now body st o hb hfind huser' hmiss]
  · intro hall hrole
    have hcond : (body.role.getD "" == "resident" ||
        body.role.getD "" == "president") = true := by
      rcases hrole with h | h <;> rw [h] <;> rfl
    have hparse : parseInsertUser (body.name.getD "")
        (normalizePhone (body.phone.getD "")) (body.flat.getD "")
        (body.floor.getD "") (body.block.getD "") (body.role.getD "") =
        some { name := body.name.getD "",
               phone := normalizePhone (body.phone.getD ""),
               flat := body.flat.getD "", floor := body.floor.getD "",
               block := body.block.getD "", role := body.role.getD "" } := by
      unfold parseInsertUser
      simp only [hcond, if_true]
    rw [verifyOtp_of_new_user now body st o _ hb hfind huser' hall hparse]
    have hfind2 : ((MemStorage.createUser
        { name := body.name.getD "",
          phone := normalizePhone (body.phone.getD ""),
          flat := body.flat.getD "", floor := body.floor.getD "",
          block := body.block.getD "", role := body.role.getD "" } now
        (MemStorage.markOtpAsUsed o.id st)).2).users.find?
        (fun x => x.id == ((MemStorage.createUser
          { name := body.name.getD "",
            phone := normalizePhone (body.phone.getD ""),
            flat := body.flat.getD "", floor := body.floor.getD "",
            block := body.block.getD "", role := body.role.getD "" } now
          (MemStorage.markOtpAsUsed o.id st)).1).id) = some
        ((MemStorage.createUser
          { name := body.name.getD "",
            phone := normalizePhone (body.phone.getD ""),
            flat := body.flat.getD "", floor := body.floor.getD "",
            block := body.block.getD "", role := body.role.getD "" } now
          (MemStorage.markOtpAsUsed o.id st)).1) :=
      find?_append_singleton st.users _ hfresh
    rw [finishVerify_fresh _ _ hfind2]
    constructor
    · rfl
    · show (st.users ++ [User.mk st.nextId (body.name.getD "")
          (normalizePhone (body.phone.getD "")) (body.flat.getD "")
          (body.floor.getD "") (body.block.getD "") (body.role.getD "")
          false now]).map
          (fun x => if x.id == st.nextId then
            User.mk st.nextId (body.name.getD "")
              (normalizePhone (body.phone.getD "")) (body.flat.getD "")
              (body.floor.getD "") (body.block.getD "") (body.role.getD "")
              true now
            else x) = st.users ++
          [User.mk st.nextId (body.name.getD "")
            (normalizePhone (body.phone.getD "")) (body.flat.getD "")
            (body.floor.getD "") (body.block.getD "") (body.role.getD "")
            true now]
      have h1 : st.users.map (fun x =>
          if x.id == st.nextId then
            User.mk st.nextId (body.name.getD "")
              (normalizePhone (body.phone.getD "")) (body.flat.getD "")
              (body.floor.getD "") (body.block.getD "") (body.role.getD "")
              true now
          else x) = st.users := by
        apply list_map_fixed
        intro x hx
        have hne : (x.id == st.nextId) = false :=
          beq_eq_false_iff_ne.mpr (hfresh x hx)
        simp [hne]
      rw [List.map_append, h1, List.map_cons, List.map_nil]
      simp

/-- Witness for C5 (amended): full valid profile on a fresh phone registers
and returns a verified user. -/
theorem verifyOtp_new_user_registration_witness :
    (verifyOtp 0 bodyFull stOneOtp).1 =
      .ok { id := 1, name := "Asha", phone := "5551234567", flat := "7",
            floor := "1", block := "A", role := "resident",
            isVerified := true } :=
  ((verifyOtp_new_user_registration 0 bodyFull stOneOtp otpB1 rfl rfl
      (by decide) rfl (by decide)).2.1 (by decide) (Or.inl rfl)).1

/-- C6: on the new-user path (valid OTP, no user for the phone), a payload
whose five profile fields are all present but whose role is outside
`{resident, president}` is rejected by schema validation (`validationError`)
with no user created; and an empty-string profile field is rejected (it
fails the presence check) rather than stored. -/
theorem verifyOtp_schema_validation (now : Nat) (body : VerifyBody)
    (st : State) (o : Otp)
    (hp : truthy body.phone = true) (hc : truthy body.otp = true)
    (hfind : MemStorage.getValidOtp (normalizePhone (body.phone.getD ""))
      (body.otp.getD "") now st = some o)
    (hnouser : MemStorage.getUserByPhone
      (normalizePhone (body.phone.getD "")) st = none) :
    (((truthy body.name && truthy body.flat && truthy body.floor &&
        truthy body.block && truthy body.role) = true) →
      body.role.getD "" ≠ "resident" → body.role.getD "" ≠ "president" →
      (verifyOtp now body st).1 = .validationError ∧
      ((verifyOtp now body st).2).users = st.users) ∧
    ((body.name = some "" ∨ body.flat = some "" ∨ body.floor = some "" ∨
        body.block = some "" ∨ body.role = some "") →
      (verifyOtp now body st).1 = .missingRegistrationFields ∧
      ((verifyOtp now body st).2).users = st.users) := by
  have hb := truthy_and_true_of hp hc
  have huser' : MemStorage.getUserByPhone
      (normalizePhone (body.phone.getD ""))
      (MemStorage.markOtpAsUsed o.id st) = none := hnouser
  constructor
  · intro hall hne1 hne2
    have h1 : (body.role.getD "" == "resident") = false :=
      beq_eq_false_iff_ne.mpr hne1
    have h2 : (body.role.getD "" == "president") = false :=
      beq_eq_false_iff_ne.mpr hne2
    have hparse : parseInsertUser (body.name.getD "")
        (normalizePhone (body.phone.getD "")) (body.flat.getD "")
        (body.floor.getD "") (body.block.getD "") (body.role.getD "") =
        none := by
      unfold parseInsertUser
      rw [h1, h2]
      rfl
    rw [verifyOtp_of_bad_payload now body st o hb hfind huser' hall hparse]
    exact ⟨rfl, rfl⟩
  · intro hempty
    have hall : (truthy body.name && truthy body.flat && truthy body.floor &&
        truthy body.block && truthy body.role) = false := by
      rcases hempty with h | h | h | h | h <;> rw [h] <;> simp [truthy]
    rw [verifyOtp_of_missing_fields now body st o hb hfind huser' hall]
    exact ⟨rfl, rfl⟩

/-- Witness for C6: role `admin` with all fields present is rejected by
schema validation. -/
theorem verifyOtp_schema_validation_witness :
    (verifyOtp 0 bodyAdmin stOneOtp).1 = .validationError :=
  ((verifyOtp_schema_validation 0 bodyAdmin stOneOtp otpB1 rfl rfl
      (by decide) rfl).1 (by decide) (by decide) (by decide)).1

theorem eq_of_id_eq (l : List User)
    (h : l.Pairwise (fun a b => a.id ≠ b.id)) (x y : User)
    (hx : x ∈ l) (hy : y ∈ l) (hid : x.id = y.id) : x = y := by
  induction l with
  | nil => cases hx
  | cons a t ih =>
    have hhead := (List.pairwise_cons.mp h).1
    have htail := (List.pairwise_cons.mp h).2
    rcases List.mem_cons.mp hx with rfl | hx'
    · rcases List.mem_cons.mp hy with rfl | hy'
      · rfl
      · exact absurd hid (hhead y hy')
    · rcases List.mem_cons.mp hy with rfl | hy'
      · exact absurd hid.symm (hhead x hx')
      · exact ih htail hx' hy'

theorem find?_id_unique (l : List User)
    (hids : l.Pairwise (fun a b => a.id ≠ b.id)) (u : User) (hu : u ∈ l) :
    l.find? (fun x => x.id == u.id) = some u := by
  induction l with
  | nil => cases hu
  | cons a t ih =>
    rcases List.mem_cons.mp hu with rfl | hu'
    · rw [List.find?_cons_of_pos (p := fun x => x.id == u.id) (a := u) t
        (by simp)]
    · have hne : a.id ≠ u.id := (List.pairwise_cons.mp hids).1 u hu'
      rw [List.find?_cons_of_neg (p := fun x => x.id == u.id) (a := a) t
        (by simp [hne])]
      exact ih (List.pairwise_cons.mp hids).2 hu'

/-- C7: with a valid OTP and an existing user `u` for the normalized phone,
`verifyOtp` returns `u` with `isVerified := true` and every other field
unchanged, stores that record, changes no other stored field of any user
(in particular `createdAt` is never modified), and ignores the profile
fields of the request body entirely. -/
theorem verifyOtp_existing_user_frame (now : Nat) (body : VerifyBody)
    (st : State) (o : Otp) (u : User)
    (hids : st.users.Pairwise (fun a b => a.id ≠ b.id))
    (hp : truthy body.phone = true) (hc : truthy body.otp = true)
    (hfind : MemStorage.getValidOtp (normalizePhone (body.phone.getD ""))
      (body.otp.getD "") now st = some o)
    (huser : MemStorage.getUserByPhone
      (normalizePhone (body.phone.getD "")) st = some u) :
    (verifyOtp now body st).1 =
      .ok { id := u.id, name := u.name, phone := u.phone, flat := u.flat,
            floor := u.floor, block := u.block, role := u.role,
            isVerified := true } ∧
    { u with isVerified := true } ∈ ((verifyOtp now body st).2).users ∧
    (∀ x ∈ ((verifyOtp now body st).2).users, ∃ y ∈ st.users,
      x.id = y.id ∧ x.createdAt = y.createdAt ∧ x.name = y.name ∧
      x.phone = y.phone ∧ x.flat = y.flat ∧ x.floor = y.floor ∧
      x.block = y.block ∧ x.role = y.role) ∧
    (∀ body2, body2.phone = body.phone → body2.otp = body.otp →
      verifyOtp now body2 st = verifyOtp now body st) := by
  have hb := truthy_and_true_of hp hc
  have huser' : MemStorage.getUserByPhone
      (normalizePhone (body.phone.getD ""))
      (MemStorage.markOtpAsUsed o.id st) = some u := huser
  have humem : u ∈ st.users := by
    unfold MemStorage.getUserByPhone at huser
    exact List.mem_of_find?_eq_some huser
  have hfind2 : ((MemStorage.markOtpAsUsed o.id st).users).find?
      (fun x => x.id == u.id) = some u := find?_id_unique st.users hids u humem
  rw [verifyOtp_of_existing_user now body st o u hb hfind huser']
  rw [finishVerify_fresh u (MemStorage.markOtpAsUsed o.id st) hfind2]
  refine ⟨rfl, ?_, ?_, ?_⟩
  · show { u with isVerified := true } ∈ st.users.map (fun x =>
      if x.id == u.id then { u with isVerified := true } else x)
    exact List.mem_map.mpr ⟨u, humem, by simp⟩
  · intro x hx
    have hx' : x ∈ st.users.map (fun z =>
        if z.id == u.id then { u with isVerified := true } else z) := hx
    rcases List.mem_map.mp hx' with ⟨y, hy, hxy⟩
    by_cases hid : y.id = u.id
    · have hyu : y = u := eq_of_id_eq st.users hids y u hy humem hid
      subst hyu
      rw [if_pos (by simp)] at hxy
      subst hxy
      exact ⟨y, hy, rfl, rfl, rfl, rfl, rfl, rfl, rfl, rfl⟩
    · rw [if_neg (by simp [hid])] at hxy
      subst hxy
      exact ⟨y, hy, rfl, rfl, rfl, rfl, rfl, rfl, rfl, rfl⟩
  · intro body2 h1 h2
    have hb2 : (truthy body2.phone && truthy body2.otp) = true := by
      rw [h1, h2]; exact hb
    have hfind3 : MemStorage.getValidOtp
        (normalizePhone (body2.phone.getD "")) (body2.otp.getD "") now st =
        some o := by
      rw [h1, h2]; exact hfind
    have huser3 : MemStorage.getUserByPhone
        (normalizePhone (body2.phone.getD ""))
        (MemStorage.markOtpAsUsed o.id st) = some u := by
      rw [h1]; exact huser'
    rw [verifyOtp_of_existing_user now body2 st o u hb2 hfind3 huser3]
    rw [finishVerify_fresh u (MemStorage.markOtpAsUsed o.id st) hfind2]

def userC : User :=
  { id := 5, name := "Ravi", phone := "5551234567", flat := "2",
    floor := "1", block := "C", role := "president", isVerified := false,
    createdAt := 42 }

def stC : State :=
  { users := [userC], otps := [otpB1], services := [], nextId := 6 }

/-- Witness for C7: verifying an already-registered phone returns the
existing user verified, with profile fields of the request ignored. -/
theorem verifyOtp_existing_user_frame_witness :
    (verifyOtp 0 bodyFull stC).1 =
      .ok { id := 5, name := "Ravi", phone := "5551234567", flat := "2",
            floor := "1", block := "C", role := "president",
            isVerified := true } :=
  (verifyOtp_existing_user_frame 0 bodyFull stC otpB1 userC (by decide)
    rfl rfl (by decide) rfl).1

/-- The user-side well-formedness every store reachable by the handlers
keeps: distinct map keys (ids), keys below the freshness counter, and at
most one user record per phone. -/
def UsersWF (st : State) : Prop :=
  st.users.Pairwise (fun a b => a.id ≠ b.id) ∧
  (∀ u ∈ st.users, u.id < st.nextId) ∧
  (∀ p, st.users.countP (fun u => u.phone == p) ≤ 1)

theorem id_preserved_by_verify_update (u : User) (x : User) :
    ((if x.id == u.id then { u with isVerified := true } else x) : User).id =
      x.id := by
  by_cases h : x.id = u.id
  · simp [h]
  · simp [beq_eq_false_iff_ne.mpr h]

theorem usersWF_update_map (l : List User) (nid : Nat) (u : User)
    (hWFp : l.Pairwise (fun a b => a.id ≠ b.id))
    (hWFlt : ∀ x ∈ l, x.id < nid)
    (hWFc : ∀ p, l.countP (fun x => x.phone == p) ≤ 1)
    (humem : u ∈ l) :
    (l.map (fun x => if x.id == u.id then { u with isVerified := true }
      else x)).Pairwise (fun a b => a.id ≠ b.id) ∧
    (∀ x ∈ l.map (fun x => if x.id == u.id then { u with isVerified := true }
      else x), x.id < nid) ∧
    (∀ p, (l.map (fun x => if x.id == u.id then { u with isVerified := true }
      else x)).countP (fun x => x.phone == p) ≤ 1) := by
  refine ⟨?_, ?_, ?_⟩
  · rw [List.pairwise_map]
    apply hWFp.imp
    intro a b hab
    rw [id_preserved_by_verify_update u a, id_preserved_by_verify_update u b]
    exact hab
  · intro x hx
    rcases List.mem_map.mp hx with ⟨y, hy, rfl⟩
    rw [id_preserved_by_verify_update u y]
    exact hWFlt y hy
  · intro p
    rw [List.countP_map]
    have hcong : ∀ x ∈ l,
        ((fun z => z.phone == p) ∘ (fun z =>
          if z.id == u.id then { u with isVerified := true } else z)) x ↔
        (fun z => z.phone == p) x := by
      intro x hx
      by_cases hid : x.id = u.id
      · have hxu : x = u := eq_of_id_eq l hWFp x u hx humem hid
        subst hxu
        simp
      · have hbne : (x.id == u.id) = false := beq_eq_false_iff_ne.mpr hid
        simp [hbne, hid]
    rw [List.countP_congr hcong]
    exact hWFc p

theorem usersWF_append_new (l : List User) (nid : Nat) (v : User)
    (hWFp : l.Pairwise (fun a b => a.id ≠ b.id))
    (hWFlt : ∀ x ∈ l, x.id < nid)
    (hWFc : ∀ p, l.countP (fun x => x.phone == p) ≤ 1)
    (hvid : v.id = nid)
    (hvphone : ∀ x ∈ l, x.phone ≠ v.phone) :
    (l ++ [v]).Pairwise (fun a b => a.id ≠ b.id) ∧
    (∀ x ∈ l ++ [v], x.id < nid + 1) ∧
    (∀ p, (l ++ [v]).countP (fun x => x.phone == p) ≤ 1) := by
  refine ⟨?_, ?_, ?_⟩
  · rw [List.pairwise_append]
    refine ⟨hWFp, List.pairwise_singleton _ v, ?_⟩
    intro x hx y hy
    rcases List.mem_singleton.mp hy with rfl
    rw [hvid]
    exact Nat.ne_of_lt (hWFlt x hx)
  · intro x hx
    rcases List.mem_append.mp hx with h1 | h1
    · exact Nat.lt_succ_of_lt (hWFlt x h1)
    · rcases List.mem_singleton.mp h1 with rfl
      rw [hvid]
      exact Nat.lt_succ_self nid
  · intro p
    rw [List.countP_append]
    have hsing : List.countP (fun x => x.phone == p) [v] =
        if (v.phone == p) = true then 1 else 0 := by
      simp [List.countP_cons]
    by_cases hvp : v.phone = p
    · have hz : List.countP (fun x => x.phone == p) l = 0 := by
        apply List.countP_eq_zero.mpr
        intro x hx hpx
        exact hvphone x hx (by
          have := beq_iff_eq.mp hpx
          rw [this, hvp])
      rw [hz, hsing, if_pos (beq_iff_eq.mpr hvp)]
    · have hvpb : (v.phone == p) = false := beq_eq_false_iff_ne.mpr hvp
      rw [hsing, hvpb]
      simp only [Bool.false_eq_true, if_false, Nat.add_zero]
      exact hWFc p

theorem parseInsertUser_phone (n ph f fl b r : String) (d : InsertUser)
    (h : parseInsertUser n ph f fl b r = some d) : d.phone = ph := by
  unfold parseInsertUser at h
  cases hcb : (r == "resident" || r == "president") with
  | true =>
    simp only [hcb, eq_self_iff_true, if_true] at h
    rw [← Option.some.inj h]
  | false =>
    rw [hcb] at h
    simp only [Bool.false_eq_true, if_false] at h
    cases h

theorem verifyOtp_state_of_new_user (now : Nat) (body : VerifyBody)
    (st : State) (o : Otp) (d : InsertUser)
    (hb : (truthy body.phone && truthy body.otp) = true)
    (hfind : MemStorage.getValidOtp (normalizePhone (body.phone.getD ""))
      (body.otp.getD "") now st = some o)
    (huser : MemStorage.getUserByPhone (normalizePhone (body.phone.getD ""))
      (MemStorage.markOtpAsUsed o.id st) = none)
    (hall : (truthy body.name && truthy body.flat && truthy body.floor &&
      truthy body.block && truthy body.role) = true)
    (hparse : parseInsertUser (body.name.getD "")
      (normalizePhone (body.phone.getD "")) (body.flat.getD "")
      (body.floor.getD "") (body.block.getD "") (body.role.getD "") = some d)
    (hfresh : ∀ x ∈ st.users, x.id ≠ st.nextId) :
    ((verifyOtp now body st).2).users = st.users ++
      [User.mk st.nextId d.name d.phone d.flat d.floor d.block d.role
        true now] ∧
    ((verifyOtp now body st).2).nextId = st.nextId + 1 := by
  rw [verifyOtp_of_new_user now body st o d hb hfind huser hall hparse]
  have hfind2 : ((MemStorage.createUser d now
      (MemStorage.markOtpAsUsed o.id st)).2).users.find?
      (fun x => x.id == ((MemStorage.createUser d now
        (MemStorage.markOtpAsUsed o.id st)).1).id) = some
      ((MemStorage.createUser d now
        (MemStorage.markOtpAsUsed o.id st)).1) :=
    find?_append_singleton st.users _ hfresh
  rw [finishVerify_fresh _ _ hfind2]
  constructor
  · show (st.users ++ [User.mk st.nextId d.name d.phone d.flat d.floor
        d.block d.role false now]).map
      (fun x => if x.id == st.nextId then
        User.mk st.nextId d.name d.phone d.flat d.floor d.block d.role
          true now
        else x) = st.users ++
      [User.mk st.nextId d.name d.phone d.flat d.floor d.block d.role
        true now]
    have h1 : st.users.map (fun x =>
        if x.id == st.nextId then
          User.mk st.nextId d.name d.phone d.flat d.floor d.block d.role
            true now
        else x) = st.users := by
      apply list_map_fixed
      intro x hx
      have hne : (x.id == st.nextId) = false :=
        beq_eq_false_iff_ne.mpr (hfresh x hx)
      simp [hne]
    rw [List.map_append, h1, List.map_cons, List.map_nil]
    simp
  · rfl

def d0 : InsertUser :=
  { name := "A", phone := "5551234567", flat := "1", floor := "1",
    block := "A", role := "resident" }

/-- C8: every `verifyOtp` step preserves the application-level invariant
that a phone number has at most one user record (together with the id
well-formedness the in-memory map guarantees); the storage layer itself
enforces no uniqueness: two raw `createUser` calls with the same phone
yield two records for that phone. -/
theorem phone_uniqueness_application_level (now : Nat) (body : VerifyBody)
    (st : State) :
    (UsersWF st → UsersWF ((verifyOtp now body st).2)) ∧
    (((MemStorage.createUser d0 0
        (MemStorage.createUser d0 0 State.empty).2).2).users.countP
      (fun u => u.phone == d0.phone) = 2) := by
  constructor
  · rintro ⟨hWFp, hWFlt, hWFc⟩
    cases hb : (truthy body.phone && truthy body.otp) with
    | false =>
      rw [verifyOtp_of_not_truthy now body st hb]
      exact ⟨hWFp, hWFlt, hWFc⟩
    | true =>
      cases hfind : MemStorage.getValidOtp
          (normalizePhone (body.phone.getD "")) (body.otp.getD "") now st with
      | none =>
        rw [verifyOtp_of_no_valid_otp now body st hb hfind]
        exact ⟨hWFp, hWFlt, hWFc⟩
      | some o =>
        cases huser : MemStorage.getUserByPhone
            (normalizePhone (body.phone.getD ""))
            (MemStorage.markOtpAsUsed o.id st) with
        | some u =>
          have humem : u ∈ st.users := by
            unfold MemStorage.getUserByPhone at huser
            exact List.mem_of_find?_eq_some huser
          have hfind2 : ((MemStorage.markOtpAsUsed o.id st).users).find?
              (fun x => x.id == u.id) = some u :=
            find?_id_unique st.users hWFp u humem
          rw [verifyOtp_of_existing_user now body st o u hb hfind huser]
          rw [finishVerify_fresh u (MemStorage.markOtpAsUsed o.id st) hfind2]
          exact usersWF_update_map st.users st.nextId u hWFp hWFlt hWFc humem
        | none =>
          cases hall : (truthy body.name && truthy body.flat &&
              truthy body.floor && truthy body.block &&
              truthy body.role) with
          | false =>
            rw [verifyOtp_of_missing_fields now body st o hb hfind huser hall]
            exact ⟨hWFp, hWFlt, hWFc⟩
          | true =>
            cases hparse : parseInsertUser (body.name.getD "")
                (normalizePhone (body.phone.getD "")) (body.flat.getD "")
                (body.floor.getD "") (body.block.getD "")
                (body.role.getD "") with
            | none =>
              rw [verifyOtp_of_bad_payload now body st o hb hfind huser
                hall hparse]
              exact ⟨hWFp, hWFlt, hWFc⟩
            | some d =>
              have hfresh : ∀ x ∈ st.users, x.id ≠ st.nextId :=
                fun x hx => Nat.ne_of_lt (hWFlt x hx)
              obtain ⟨husers, hnext⟩ := verifyOtp_state_of_new_user now body
                st o d hb hfind huser hall hparse hfresh
              have hdphone : d.phone = normalizePhone (body.phone.getD "") :=
                parseInsertUser_phone _ _ _ _ _ _ d hparse
              have hnophone : ∀ x ∈ st.users, x.phone ≠
                  (User.mk st.nextId d.name d.phone d.flat d.floor d.block
                    d.role true now).phone := by
                intro x hx heq
                unfold MemStorage.getUserByPhone at huser
                have hno := List.find?_eq_none.mp huser x hx
                apply hno
                show (x.phone == normalizePhone (body.phone.getD "")) = true
                rw [← hdphone]
                exact beq_iff_eq.mpr heq
              have hres := usersWF_append_new st.users st.nextId
                (User.mk st.nextId d.name d.phone d.flat d.floor d.block
                  d.role true now) hWFp hWFlt hWFc rfl hnophone
              refine ⟨?_, ?_, ?_⟩
              · rw [husers]
                exact hres.1
              · rw [husers, hnext]
                exact hres.2.1
              · rw [husers]
                exact hres.2.2
  · decide

/-- Witness for C8: a `verifyOtp` step from the well-formed example store
yields a well-formed store (at most one user per phone). -/
theorem phone_uniqueness_application_level_witness :
    UsersWF ((verifyOtp 500 bodyA stA).2) :=
  (phone_uniqueness_application_level 500 bodyA stA).1
    ⟨by decide, by decide, by
      intro p
      show List.countP (fun (u : User) => u.phone == p) ([] : List User) ≤ 1
      simp⟩

/-- C9: `getServicesByUser userId` returns exactly the services whose
`offeredByUserId` equals `userId` — each such record and no other — and is
empty precisely when no stored service has that owner (in particular for
ids referencing no existing user). -/
theorem getServicesByUser_exact (uid : Nat) (st : State) :
    (∀ s, s ∈ MemStorage.getServicesByUser uid st ↔
      (s ∈ st.services ∧ s.offeredByUserId = uid)) ∧
    (MemStorage.getServicesByUser uid st = [] ↔
      ∀ s ∈ st.services, s.offeredByUserId ≠ uid) := by
  constructor
  · intro s
    unfold MemStorage.getServicesByUser
    rw [List.mem_filter]
    simp
  · unfold MemStorage.getServicesByUser
    rw [List.filter_eq_nil_iff]
    simp

def svc1 : Service :=
  { id := 10, title := "Tutoring", description := "Math", price := "5",
    category := "education", offeredByUserId := 5, createdAt := 0 }

def svc2 : Service :=
  { id := 11, title := "Plumbing", description := "Taps", price := "9",
    category := "repair", offeredByUserId := 6, createdAt := 0 }

def stSvc : State :=
  { users := [], otps := [], services := [svc1, svc2], nextId := 12 }

/-- Witness for C9: the service offered by user 5 is listed for user 5. -/
theorem getServicesByUser_exact_witness :
    svc1 ∈ MemStorage.getServicesByUser 5 stSvc :=
  ((getServicesByUser_exact 5 stSvc).1 svc1).mpr ⟨by decide, rfl⟩
